import Mathlib

/-!
# Verification of `dnszoneinfo.py` (DNS Record Normalizer)

A shallow embedding of the DNS-record conversion logic of
`src/dnszoneinfo.py` (function `parse_dns_info` and the error reporting
of the `__main__` block), together with theorems settling the spec's
claims about it.

Modelling choices:
* A raw record entry is a structure whose fields are `Option`-valued:
  `none` models a dictionary that lacks the attribute, so that a Python
  `record['K']` access is a lookup that can raise `KeyError('K')`.
* The decoded document is represented by the two pieces of it that
  `parse_dns_info` reads: the optional sequence at
  `Result.CustomHostRecords.Records` and the optional text at
  `Result.DomainBasicDetails.DomainName`.
* Python exceptions become an error type threaded through `Except`.
* Python `str()` on an `int` is Lean's `toString : Int → String`
  (decimal rendering, `-` sign only for negatives, no leading zeros).
-/

/-- One element of the `Records` sequence.  Each field is `none` when the
underlying dictionary lacks the attribute. -/
structure RawRecord where
  IsActive : Option Bool
  RecordType : Option Int
  Data : Option String
  Host : Option String
  Ttl : Option Int
  Priority : Option Int
deriving Repr, DecidableEq

/-- The decoded JSON document, restricted to the two paths
`parse_dns_info` reads.  `records = none` models a document in which the
path `Result.CustomHostRecords.Records` is absent; `domainName = none`
models the absence of `Result.DomainBasicDetails.DomainName`. -/
structure DnsInfo where
  records : Option (List RawRecord)
  domainName : Option String
deriving Repr, DecidableEq

/-- Python exceptions raised by `parse_dns_info`: `keyError m` models
`KeyError(m)` (a failed dictionary lookup, or the explicit
`KeyError('JSON is in an unexpected format')`), and `exception m` models
`Exception(m)`. -/
inductive PyError where
  | keyError (msg : String)
  | exception (msg : String)
deriving Repr, DecidableEq

/-- The `RECORD_TYPES` table of `dnszoneinfo.py`: provider record-type
codes to DNS record-type names. -/
def RECORD_TYPES : List (Int × String) :=
  [(1, "A"), (2, "CNAME"), (3, "MX"), (5, "TXT"), (8, "AAAA"),
   (9, "NS"), (10, "URL Redirect"), (11, "SRV"), (12, "CAA"), (13, "ALIAS")]

/-- Dictionary lookup in `RECORD_TYPES`: `some name` when the code is a
key of the table, `none` otherwise. -/
def recordTypesLookup (code : Int) : Option String :=
  (RECORD_TYPES.find? (fun p => p.1 == code)).map (fun p => p.2)

/-- The `value` computation of the loop body: `value = record['Data']`,
then `value = f"{record['Priority']} {value}"` for MX and
`value = f'"{value}"'` for TXT.  Accessing `Priority` can raise. -/
def computeValue (record_type : String) (record : RawRecord)
    (data : String) : Except PyError String :=
  if record_type = "MX" then
    match record.Priority with
    | none => .error (.keyError "Priority")
    | some p => .ok (toString p ++ " " ++ data)
  else if record_type = "TXT" then
    .ok ("\"" ++ data ++ "\"")
  else
    .ok data

/-- The `host` computation of the loop body: `host = record['Host']`,
rewritten for the cloudflare format against
`dns_info['Result']['DomainBasicDetails']['DomainName']` (whose access
can raise). -/
def computeHost (dns_info : DnsInfo) (output_format : String)
    (host0 : String) : Except PyError String :=
  if output_format = "cloudflare" then
    match dns_info.domainName with
    | none => .error (.keyError "DomainName")
    | some domain =>
      if host0 = "@" then .ok domain
      else .ok (host0 ++ "." ++ domain ++ ".")
  else
    .ok host0

/-- The body of the `for record in records` loop of `parse_dns_info`,
for a single record.  Result:
* `.ok none` — the record is skipped (`continue`): inactive, or unknown
  record type;
* `.ok (some t)` — the record is emitted as the 5-field row `t`;
* `.error e` — a dictionary access raised.
Field accesses occur in the source's order: `IsActive`, `RecordType`,
`Data`, `Host`, `Priority` (MX only), `DomainName` (cloudflare only),
`Ttl`. -/
def processRecord (dns_info : DnsInfo) (output_format : String)
    (record : RawRecord) : Except PyError (Option (List String)) :=
  match record.IsActive with
  | none => .error (.keyError "IsActive")
  | some isActive =>
    if !isActive then .ok none
    else
      match record.RecordType with
      | none => .error (.keyError "RecordType")
      | some code =>
        match recordTypesLookup code with
        | none => .ok none
        | some record_type =>
          match record.Data with
          | none => .error (.keyError "Data")
          | some data =>
            match record.Host with
            | none => .error (.keyError "Host")
            | some host0 =>
              match computeValue record_type record data with
              | .error e => .error e
              | .ok value =>
                match computeHost dns_info output_format host0 with
                | .error e => .error e
                | .ok host =>
                  match record.Ttl with
                  | none => .error (.keyError "Ttl")
                  | some ttl =>
                    .ok (some [host, toString ttl, "IN", record_type, value])

/-- The loop of `parse_dns_info` over the whole `records` sequence:
emitted rows are appended in input order, a raised exception aborts the
whole run with no output. -/
def processRecords (dns_info : DnsInfo) (output_format : String) :
    List RawRecord → Except PyError (List (List String))
  | [] => .ok []
  | r :: rs =>
    match processRecord dns_info output_format r with
    | .error e => .error e
    | .ok o =>
      match processRecords dns_info output_format rs with
      | .error e => .error e
      | .ok rest =>
        match o with
        | none => .ok rest
        | some t => .ok (t :: rest)

/-- `parse_dns_info(dns_info, output_format)` of `dnszoneinfo.py`:
checks the `Result.CustomHostRecords.Records` path, rejects an empty
sequence, then runs the per-record loop. -/
def parse_dns_info (dns_info : DnsInfo) (output_format : String) :
    Except PyError (List (List String)) :=
  match dns_info.records with
  | none => .error (.keyError "JSON is in an unexpected format")
  | some records =>
    if records.length = 0 then .error (.exception "No DNS records found in JSON")
    else processRecords dns_info output_format records

/-! ## Derived views of the loop body -/

/-- The record-type name resolved through the table, when the record
carries a `RecordType` attribute that is a key of the table. -/
def recordTypeName (record : RawRecord) : Option String :=
  record.RecordType.bind recordTypesLookup

/-- The row a single record contributes, `none` when the record is
skipped or an access raises.  Directly derived from `processRecord`. -/
def emitOne (dns_info : DnsInfo) (output_format : String)
    (record : RawRecord) : Option (List String) :=
  match processRecord dns_info output_format record with
  | .ok o => o
  | .error _ => none

/-- The record carries every attribute the loop body can ask of it
(`Priority` only when its type resolves to MX). -/
def wellFormed (record : RawRecord) : Prop :=
  record.IsActive.isSome ∧ record.RecordType.isSome ∧
  record.Data.isSome ∧ record.Host.isSome ∧ record.Ttl.isSome ∧
  (recordTypeName record = some "MX" → record.Priority.isSome)

instance (record : RawRecord) : Decidable (wellFormed record) := by
  unfold wellFormed; infer_instance

/-- The record passes both skip filters of the loop: it is active and
its `RecordType` is a key of the table. -/
def qualifies (record : RawRecord) : Prop :=
  record.IsActive = some true ∧ (recordTypeName record).isSome

instance (record : RawRecord) : Decidable (qualifies record) := by
  unfold qualifies; infer_instance

/-! ## The error reporting of the `__main__` block

The `__main__` block wraps the whole run in
`try: ... except (IOError, KeyError, Exception) as e: print(f'ERROR: {e}')
except json.decoder.JSONDecodeError as e:
print(f'ERROR: Unable to decode JSON from {filename}: {e}')`.
Python runs the first `except` clause whose class tuple matches the
raised exception, where matching is an `isinstance` test against the
class hierarchy: `json.decoder.JSONDecodeError` is a subclass of
`ValueError`, itself a subclass of `Exception`; `IOError` and `KeyError`
are likewise subclasses of `Exception`. -/

/-- The exception classes named by the two `except` clauses. -/
inductive ExcClass where
  | ioErrorClass
  | keyErrorClass
  | exceptionClass
  | jsonDecodeErrorClass
deriving Repr, DecidableEq

/-- The kinds of exception the `try` body can raise. -/
inductive ExcKind where
  | ioError
  | keyErr
  | jsonDecodeError
  | otherException
deriving Repr, DecidableEq

/-- Python's `isinstance` test for the classes above.  Every kind is an
instance of `Exception`; `json.decoder.JSONDecodeError` is additionally
an instance of its own class, as are `IOError` and `KeyError`. -/
def isinstanceOf : ExcKind → ExcClass → Bool
  | .ioError, .ioErrorClass => true
  | .keyErr, .keyErrorClass => true
  | .jsonDecodeError, .jsonDecodeErrorClass => true
  | _, .exceptionClass => true
  | _, _ => false

/-- The two `except` clauses of `__main__`, in source order: each is the
tuple of classes it catches and the message it prints from the
exception's text. -/
def mainHandlers (filename : String) :
    List (List ExcClass × (String → String)) :=
  [([.ioErrorClass, .keyErrorClass, .exceptionClass],
    fun e => "ERROR: " ++ e),
   ([.jsonDecodeErrorClass],
    fun e => "ERROR: Unable to decode JSON from " ++ filename ++ ": " ++ e)]

/-- First-match dispatch of a raised exception over the `except`
clauses: the message printed, or `none` if no clause matches. -/
def reportException (filename : String) (kind : ExcKind) (msg : String) :
    Option String :=
  ((mainHandlers filename).find?
      (fun clause => clause.1.any (fun cls => isinstanceOf kind cls))).map
    (fun clause => clause.2 msg)

/-! ## Helper lemmas about the loop body -/

/-- Every exception `processRecord` raises is a `KeyError` (a failed
dictionary lookup). -/
theorem processRecord_error_shape (d : DnsInfo) (fmt : String) (r : RawRecord)
    (e : PyError) (h : processRecord d fmt r = .error e) :
    ∃ m, e = PyError.keyError m := by
  rcases hA : r.IsActive with _ | a
  · simp [processRecord, hA] at h
    exact ⟨_, h.symm⟩
  · rcases a
    · simp [processRecord, hA] at h
    · rcases hC : r.RecordType with _ | c
      · simp [processRecord, hA, hC] at h
        exact ⟨_, h.symm⟩
      · rcases hL : recordTypesLookup c with _ | tn
        · simp [processRecord, hA, hC, hL] at h
        · rcases hD : r.Data with _ | data
          · simp [processRecord, hA, hC, hL, hD] at h
            exact ⟨_, h.symm⟩
          · rcases hH : r.Host with _ | host0
            · simp [processRecord, hA, hC, hL, hD, hH] at h
              exact ⟨_, h.symm⟩
            · rcases hV : computeValue tn r data with eV | value
              · have : eV = PyError.keyError "Priority" := by
                  unfold computeValue at hV
                  split at hV
                  · split at hV <;> simp_all
                  · split at hV <;> simp_all
                simp [processRecord, hA, hC, hL, hD, hH, hV, this] at h
                exact ⟨_, h.symm⟩
              · rcases hHo : computeHost d fmt host0 with eH | host
                · have : eH = PyError.keyError "DomainName" := by
                    unfold computeHost at hHo
                    split at hHo
                    · split at hHo <;> simp_all
                      split at hHo <;> simp_all
                    · simp_all
                  simp [processRecord, hA, hC, hL, hD, hH, hV, hHo, this] at h
                  exact ⟨_, h.symm⟩
                · rcases hT : r.Ttl with _ | ttl
                  · simp [processRecord, hA, hC, hL, hD, hH, hV, hHo, hT] at h
                    exact ⟨_, h.symm⟩
                  · simp [processRecord, hA, hC, hL, hD, hH, hV, hHo, hT] at h

/-- Inversion of an emitted row: all the fields the row is built from. -/
theorem processRecord_emit_inv (d : DnsInfo) (fmt : String) (r : RawRecord)
    (t : List String) (h : processRecord d fmt r = .ok (some t)) :
    ∃ c tn data h0 ttl value host,
      r.IsActive = some true ∧ r.RecordType = some c ∧
      recordTypesLookup c = some tn ∧ r.Data = some data ∧
      r.Host = some h0 ∧ r.Ttl = some ttl ∧
      computeValue tn r data = .ok value ∧
      computeHost d fmt h0 = .ok host ∧
      t = [host, toString ttl, "IN", tn, value] := by
  rcases hA : r.IsActive with _ | a
  · simp [processRecord, hA] at h
  · rcases a
    · simp [processRecord, hA] at h
    · rcases hC : r.RecordType with _ | c
      · simp [processRecord, hA, hC] at h
      · rcases hL : recordTypesLookup c with _ | tn
        · simp [processRecord, hA, hC, hL] at h
        · rcases hD : r.Data with _ | data
          · simp [processRecord, hA, hC, hL, hD] at h
          · rcases hH : r.Host with _ | host0
            · simp [processRecord, hA, hC, hL, hD, hH] at h
            · rcases hV : computeValue tn r data with eV | value
              · simp [processRecord, hA, hC, hL, hD, hH, hV] at h
              · rcases hHo : computeHost d fmt host0 with eH | host
                · simp [processRecord, hA, hC, hL, hD, hH, hV, hHo] at h
                · rcases hT : r.Ttl with _ | ttl
                  · simp [processRecord, hA, hC, hL, hD, hH, hV, hHo, hT] at h
                  · simp [processRecord, hA, hC, hL, hD, hH, hV, hHo, hT] at h
                    exact ⟨c, tn, data, host0, ttl, value, host, rfl, rfl, hL,
                      rfl, rfl, rfl, hV, hHo, h.symm⟩

/-- A record that passes both filters and can be fully read is emitted. -/
theorem processRecord_emits_of_qualifies (d : DnsInfo) (fmt : String)
    (r : RawRecord) (hwf : wellFormed r) (hq : qualifies r)
    (hdom : fmt = "cloudflare" → d.domainName.isSome) :
    ∃ t, processRecord d fmt r = .ok (some t) := by
  obtain ⟨hA, hq2⟩ := hq
  obtain ⟨-, -, hD, hH, hT, hP⟩ := hwf
  obtain ⟨data, hD⟩ := Option.isSome_iff_exists.mp hD
  obtain ⟨host0, hH⟩ := Option.isSome_iff_exists.mp hH
  obtain ⟨ttl, hT⟩ := Option.isSome_iff_exists.mp hT
  rcases hC : r.RecordType with _ | c
  · rw [recordTypeName, hC] at hq2; simp at hq2
  · rcases hL : recordTypesLookup c with _ | tn
    · rw [recordTypeName, hC] at hq2; simp [hL] at hq2
    · have hname : recordTypeName r = some tn := by
        rw [recordTypeName, hC]; exact hL
      have hV : ∃ value, computeValue tn r data = .ok value := by
        unfold computeValue
        by_cases hMX : tn = "MX"
        · obtain ⟨p, hp⟩ := Option.isSome_iff_exists.mp (hP (hname.trans (by rw [hMX])))
          exact ⟨toString p ++ " " ++ data, by simp [hMX, hp]⟩
        · by_cases hTXT : tn = "TXT"
          · exact ⟨"\"" ++ data ++ "\"", by simp [hMX, hTXT]⟩
          · exact ⟨data, by simp [hMX, hTXT]⟩
      obtain ⟨value, hV⟩ := hV
      have hHo : ∃ host, computeHost d fmt host0 = .ok host := by
        unfold computeHost
        by_cases hF : fmt = "cloudflare"
        · obtain ⟨dom, hdm⟩ := Option.isSome_iff_exists.mp (hdom hF)
          by_cases hAt : host0 = "@"
          · exact ⟨dom, by simp [hF, hdm, hAt]⟩
          · exact ⟨host0 ++ "." ++ dom ++ ".", by simp [hF, hdm, hAt]⟩
        · exact ⟨host0, by simp [hF]⟩
      obtain ⟨host, hHo⟩ := hHo
      exact ⟨[host, toString ttl, "IN", tn, value],
        by simp [processRecord, hA, hC, hL, hD, hH, hV, hHo, hT]⟩

/-- Characterisation of the skipped records: `processRecord` yields
`.ok none` exactly for an inactive record or an active one whose
`RecordType` is not a key of the table. -/
theorem processRecord_skip_iff (d : DnsInfo) (fmt : String) (r : RawRecord) :
    processRecord d fmt r = .ok none ↔
      (r.IsActive = some false ∨
        (r.IsActive = some true ∧
          ∃ c, r.RecordType = some c ∧ recordTypesLookup c = none)) := by
  constructor
  · intro h
    rcases hA : r.IsActive with _ | a
    · simp [processRecord, hA] at h
    · rcases a
      · exact Or.inl rfl
      · rcases hC : r.RecordType with _ | c
        · simp [processRecord, hA, hC] at h
        · rcases hL : recordTypesLookup c with _ | tn
          · exact Or.inr ⟨rfl, c, rfl, hL⟩
          · rcases hD : r.Data with _ | data
            · simp [processRecord, hA, hC, hL, hD] at h
            · rcases hH : r.Host with _ | host0
              · simp [processRecord, hA, hC, hL, hD, hH] at h
              · rcases hV : computeValue tn r data with eV | value
                · simp [processRecord, hA, hC, hL, hD, hH, hV] at h
                · rcases hHo : computeHost d fmt host0 with eH | host
                  · simp [processRecord, hA, hC, hL, hD, hH, hV, hHo] at h
                  · rcases hT : r.Ttl with _ | ttl
                    · simp [processRecord, hA, hC, hL, hD, hH, hV, hHo, hT] at h
                    · simp [processRecord, hA, hC, hL, hD, hH, hV, hHo, hT] at h
  · rintro (hA | ⟨hA, c, hC, hL⟩)
    · simp [processRecord, hA]
    · simp [processRecord, hA, hC, hL]

/-! ## Helper lemmas about the whole loop -/

/-- When no record raises, the loop returns exactly the per-record rows
in input order, skipped records omitted. -/
theorem processRecords_eq_filterMap (d : DnsInfo) (fmt : String) :
    ∀ rs : List RawRecord,
      (∀ r ∈ rs, ∃ o, processRecord d fmt r = .ok o) →
      processRecords d fmt rs = .ok (rs.filterMap (emitOne d fmt)) := by
  intro rs
  induction rs with
  | nil => intro _; simp [processRecords]
  | cons r rs ih =>
    intro hok
    obtain ⟨o, ho⟩ := hok r (List.mem_cons_self r rs)
    have ih' := ih (fun x hx => hok x (List.mem_cons_of_mem r hx))
    have hemit : emitOne d fmt r = o := by simp [emitOne, ho]
    cases o with
    | none => simp [processRecords, ho, ih', List.filterMap_cons, hemit]
    | some t => simp [processRecords, ho, ih', List.filterMap_cons, hemit]

/-- Every row of a successful loop run comes from some input record. -/
theorem processRecords_mem_source (d : DnsInfo) (fmt : String) :
    ∀ (rs : List RawRecord) (l : List (List String)) (t : List String),
      processRecords d fmt rs = .ok l → t ∈ l →
      ∃ r ∈ rs, processRecord d fmt r = .ok (some t) := by
  intro rs
  induction rs with
  | nil =>
    intro l t h ht
    simp [processRecords] at h
    subst h; cases ht
  | cons r rs ih =>
    intro l t h ht
    rcases hr : processRecord d fmt r with e | o
    · simp [processRecords, hr] at h
    · rcases hrs : processRecords d fmt rs with e | rest
      · simp [processRecords, hr, hrs] at h
      · cases o with
        | none =>
          simp [processRecords, hr, hrs] at h
          subst h
          obtain ⟨x, hx, hx2⟩ := ih rest t hrs ht
          exact ⟨x, List.mem_cons_of_mem r hx, hx2⟩
        | some u =>
          simp [processRecords, hr, hrs] at h
          subst h
          rcases List.mem_cons.mp ht with rfl | ht'
          · exact ⟨r, List.mem_cons_self r rs, hr⟩
          · obtain ⟨x, hx, hx2⟩ := ih rest t hrs ht'
            exact ⟨x, List.mem_cons_of_mem r hx, hx2⟩

/-- If some input record raises, the loop aborts with a `KeyError`. -/
theorem processRecords_error_of_mem (d : DnsInfo) (fmt : String) :
    ∀ (rs : List RawRecord) (r : RawRecord), r ∈ rs →
      (∀ o, processRecord d fmt r ≠ .ok o) →
      ∃ m, processRecords d fmt rs = .error (.keyError m) := by
  intro rs
  induction rs with
  | nil => intro r hr; cases hr
  | cons x xs ih =>
    intro r hr hbad
    rcases hx : processRecord d fmt x with e | o
    · obtain ⟨m, rfl⟩ := processRecord_error_shape d fmt x e hx
      exact ⟨m, by simp [processRecords, hx]⟩
    · rcases List.mem_cons.mp hr with rfl | hr'
      · exact absurd hx (hbad o)
      · obtain ⟨m, hm⟩ := ih r hr' hbad
        exact ⟨m, by simp [processRecords, hx, hm]⟩

/-- Every row of a successful `parse_dns_info` run comes from some
record of the document's `Records` sequence. -/
theorem parse_ok_mem_source (d : DnsInfo) (fmt : String)
    (out : List (List String)) (t : List String)
    (h : parse_dns_info d fmt = .ok out) (ht : t ∈ out) :
    ∃ records, d.records = some records ∧
      ∃ r ∈ records, processRecord d fmt r = .ok (some t) := by
  rcases hR : d.records with _ | records
  · simp [parse_dns_info, hR] at h
  · by_cases hlen : records.length = 0
    · simp [parse_dns_info, hR, hlen] at h
    · rw [parse_dns_info] at h
      rw [hR] at h
      simp only [hlen, if_false] at h
      exact ⟨records, rfl, processRecords_mem_source d fmt records out t h ht⟩

/-! ## Claims -/

/-- C6: a document without the path `Result.CustomHostRecords.Records`
makes `parse_dns_info` fail with the structure `KeyError`
(`'JSON is in an unexpected format'`) and produce no output rows. -/
theorem missing_records_path_structure_error (d : DnsInfo) (fmt : String)
    (h : d.records = none) :
    parse_dns_info d fmt = .error (.keyError "JSON is in an unexpected format") := by
  simp [parse_dns_info, h]

theorem missing_records_path_structure_error_witness :
    (DnsInfo.mk none (some "example.com")).records = none ∧
    parse_dns_info (DnsInfo.mk none (some "example.com")) "default" =
      .error (.keyError "JSON is in an unexpected format") :=
  ⟨rfl, missing_records_path_structure_error
    (DnsInfo.mk none (some "example.com")) "default" rfl⟩

/-- C7: a document whose `Records` sequence is present but empty makes
`parse_dns_info` fail with the emptiness `Exception`
(`'No DNS records found in JSON'`) and produce no output rows. -/
theorem empty_records_empty_result_error (d : DnsInfo) (fmt : String)
    (h : d.records = some []) :
    parse_dns_info d fmt = .error (.exception "No DNS records found in JSON") := by
  simp [parse_dns_info, h]

theorem empty_records_empty_result_error_witness :
    (DnsInfo.mk (some []) none).records = some [] ∧
    parse_dns_info (DnsInfo.mk (some []) none) "cloudflare" =
      .error (.exception "No DNS records found in JSON") :=
  ⟨rfl, empty_records_empty_result_error (DnsInfo.mk (some []) none) "cloudflare" rfl⟩

/-- C9: when the input file's text is not valid JSON, the raised
`json.decoder.JSONDecodeError` is caught by the FIRST `except` clause
(its tuple contains `Exception`, a superclass), so the reported message
is `ERROR: {e}` — the clause that names the input filename is
unreachable and the message does not identify the offending source. -/
theorem json_decode_error_reported_without_filename
    (filename msg : String) :
    reportException filename ExcKind.jsonDecodeError msg =
      some ("ERROR: " ++ msg) := rfl

/-- With no `DomainName` in the document, a record that passes both
filters can neither be skipped nor emitted under the cloudflare format:
the loop body necessarily raises. -/
theorem processRecord_cloudflare_no_domain (d : DnsInfo) (r : RawRecord)
    (hnd : d.domainName = none) (hq : qualifies r) :
    ∀ o, processRecord d "cloudflare" r ≠ .ok o := by
  intro o h
  cases o with
  | none =>
    rcases (processRecord_skip_iff d "cloudflare" r).mp h with hA | ⟨hA, c, hC, hL⟩
    · rw [hq.1] at hA; simp at hA
    · have h2 := hq.2
      rw [recordTypeName, hC] at h2
      simp [hL] at h2
  | some t =>
    obtain ⟨c, tn, data, h0, ttl, value, host, -, -, -, -, -, -, -, hHo, -⟩ :=
      processRecord_emit_inv d "cloudflare" r t h
    simp [computeHost, hnd] at hHo

/-- The loop body under the default format never reads the document, so
its result is the same for any two documents. -/
theorem processRecord_default_ignores_document (d d' : DnsInfo)
    (r : RawRecord) :
    processRecord d "default" r = processRecord d' "default" r := by
  have hch : ∀ (x : DnsInfo) (h0 : String),
      computeHost x "default" h0 = .ok h0 := by
    intro x h0; simp [computeHost]
  rcases hA : r.IsActive with _ | a
  · simp [processRecord, hA]
  · rcases a
    · simp [processRecord, hA]
    · rcases hC : r.RecordType with _ | c
      · simp [processRecord, hA, hC]
      · rcases hL : recordTypesLookup c with _ | tn
        · simp [processRecord, hA, hC, hL]
        · rcases hD : r.Data with _ | data
          · simp [processRecord, hA, hC, hL, hD]
          · rcases hH : r.Host with _ | host0
            · simp [processRecord, hA, hC, hL, hD, hH]
            · rcases hV : computeValue tn r data with eV | value
              · simp [processRecord, hA, hC, hL, hD, hH, hV]
              · simp [processRecord, hA, hC, hL, hD, hH, hV, hch]

/-- The whole loop under the default format never reads the document. -/
theorem processRecords_default_ignores_document (d d' : DnsInfo) :
    ∀ rs : List RawRecord,
      processRecords d "default" rs = processRecords d' "default" rs := by
  intro rs
  induction rs with
  | nil => rfl
  | cons r rs ih =>
    simp only [processRecords, processRecord_default_ignores_document d d' r, ih]

/-- C8 counterexample: a document lacking
`Result.DomainBasicDetails.DomainName` on which `parse_dns_info` with
the cloudflare format nevertheless succeeds (its only record is
inactive, so the domain is never read). -/
theorem cloudflare_without_domain_can_succeed :
    (DnsInfo.mk (some [RawRecord.mk (some false) none none none none none])
        none).domainName = none ∧
    parse_dns_info
      (DnsInfo.mk (some [RawRecord.mk (some false) none none none none none])
        none) "cloudflare" = .ok [] :=
  ⟨rfl, rfl⟩

/-- C8 (amended): `Result.DomainBasicDetails.DomainName` is read only
under the cloudflare format, and then only when the loop reaches a
record that passes both filters: a document lacking the path fails
under cloudflare whenever some record of its sequence is active with a
recognized type, while the default format never reads the path and its
result does not depend on the path's value. -/
theorem domain_required_only_for_cloudflare_emit
    (d : DnsInfo) (records : List RawRecord)
    (hrec : d.records = some records) (hnd : d.domainName = none)
    (hq : ∃ r ∈ records, qualifies r) :
    (∃ m, parse_dns_info d "cloudflare" = .error (.keyError m)) ∧
    (∀ (recs : Option (List RawRecord)) (dom₁ dom₂ : Option String),
      parse_dns_info (DnsInfo.mk recs dom₁) "default" =
        parse_dns_info (DnsInfo.mk recs dom₂) "default") := by
  constructor
  · obtain ⟨r, hr, hqr⟩ := hq
    obtain ⟨m, hm⟩ := processRecords_error_of_mem d "cloudflare" records r hr
      (processRecord_cloudflare_no_domain d r hnd hqr)
    have hlen : ¬records.length = 0 := by
      intro h0
      rw [List.length_eq_zero] at h0
      subst h0
      cases hr
    exact ⟨m, by simp [parse_dns_info, hrec, hlen, hm]⟩
  · intro recs dom₁ dom₂
    cases recs with
    | none => rfl
    | some rs =>
      by_cases hlen : rs.length = 0
      · simp [parse_dns_info, hlen]
      · simp [parse_dns_info, hlen]
        exact processRecords_default_ignores_document
          (DnsInfo.mk (some rs) dom₁) (DnsInfo.mk (some rs) dom₂) rs

theorem domain_required_only_for_cloudflare_emit_witness :
    (DnsInfo.mk
        (some [RawRecord.mk (some true) (some 1) (some "1.2.3.4")
          (some "www") (some 300) none]) none).records =
      some [RawRecord.mk (some true) (some 1) (some "1.2.3.4")
        (some "www") (some 300) none] ∧
    (DnsInfo.mk
        (some [RawRecord.mk (some true) (some 1) (some "1.2.3.4")
          (some "www") (some 300) none]) none).domainName = none ∧
    (∃ r ∈ [RawRecord.mk (some true) (some 1) (some "1.2.3.4")
        (some "www") (some 300) none], qualifies r) ∧
    ((∃ m, parse_dns_info
        (DnsInfo.mk
          (some [RawRecord.mk (some true) (some 1) (some "1.2.3.4")
            (some "www") (some 300) none]) none) "cloudflare" =
          .error (.keyError m)) ∧
      (∀ (recs : Option (List RawRecord)) (dom₁ dom₂ : Option String),
        parse_dns_info (DnsInfo.mk recs dom₁) "default" =
          parse_dns_info (DnsInfo.mk recs dom₂) "default")) :=
  ⟨rfl, rfl,
    ⟨RawRecord.mk (some true) (some 1) (some "1.2.3.4")
        (some "www") (some 300) none,
      List.mem_singleton.mpr rfl, rfl, rfl⟩,
    domain_required_only_for_cloudflare_emit _ _ rfl rfl
      ⟨RawRecord.mk (some true) (some 1) (some "1.2.3.4")
          (some "www") (some 300) none,
        List.mem_singleton.mpr rfl, rfl, rfl⟩⟩

/-! ## Inversion of the value and host computations -/

theorem computeValue_MX_inv (r : RawRecord) (data value : String)
    (h : computeValue "MX" r data = .ok value) :
    ∃ p, r.Priority = some p ∧ value = toString p ++ " " ++ data := by
  rcases hP : r.Priority with _ | p
  · simp [computeValue, hP] at h
  · simp [computeValue, hP] at h
    exact ⟨p, rfl, h.symm⟩

theorem computeValue_TXT_inv (r : RawRecord) (data value : String)
    (h : computeValue "TXT" r data = .ok value) :
    value = "\"" ++ data ++ "\"" := by
  simp [computeValue] at h
  exact h.symm

theorem computeHost_cloudflare_inv (d : DnsInfo) (h0 host : String)
    (h : computeHost d "cloudflare" h0 = .ok host) :
    ∃ dom, d.domainName = some dom ∧
      host = if h0 = "@" then dom else h0 ++ "." ++ dom ++ "." := by
  rcases hD : d.domainName with _ | dom
  · simp [computeHost, hD] at h
  · refine ⟨dom, rfl, ?_⟩
    by_cases hAt : h0 = "@"
    · simp [computeHost, hD, hAt] at h
      simp [hAt, h.symm]
    · simp [computeHost, hD, hAt] at h
      simp [hAt, h.symm]

theorem computeHost_default_inv (d : DnsInfo) (h0 host : String)
    (h : computeHost d "default" h0 = .ok host) : host = h0 := by
  simp [computeHost] at h
  exact h.symm

/-- C2: every row emitted under the cloudflare format has its host
field equal to the apex domain when the record's `Host` is `@`, and to
`Host ++ "." ++ domain ++ "."` (fully qualified) otherwise. -/
theorem cloudflare_emitted_host_qualified (d : DnsInfo)
    (out : List (List String)) (t : List String)
    (h : parse_dns_info d "cloudflare" = .ok out) (ht : t ∈ out) :
    ∃ records r, d.records = some records ∧ r ∈ records ∧
      ∃ h0 dom rest, r.Host = some h0 ∧ d.domainName = some dom ∧
        t = (if h0 = "@" then dom else h0 ++ "." ++ dom ++ ".") :: rest := by
  obtain ⟨records, hrec, r, hr, hpr⟩ := parse_ok_mem_source d "cloudflare" out t h ht
  obtain ⟨c, tn, data, h0, ttl, value, host, hA, hC, hL, hD, hH, hT, hV, hHo, hteq⟩ :=
    processRecord_emit_inv d "cloudflare" r t hpr
  obtain ⟨dom, hdom, hhost⟩ := computeHost_cloudflare_inv d h0 host hHo
  exact ⟨records, r, hrec, hr, h0, dom, [toString ttl, "IN", tn, value], hH, hdom,
    by rw [hteq, hhost]⟩

theorem cloudflare_emitted_host_qualified_witness :
    parse_dns_info
      (DnsInfo.mk
        (some [RawRecord.mk (some true) (some 1) (some "1.2.3.4")
          (some "www") (some 300) none]) (some "example.com")) "cloudflare" =
      .ok [["www.example.com.", "300", "IN", "A", "1.2.3.4"]] ∧
    ["www.example.com.", "300", "IN", "A", "1.2.3.4"] ∈
      [["www.example.com.", "300", "IN", "A", "1.2.3.4"]] ∧
    ∃ records r,
      (DnsInfo.mk
        (some [RawRecord.mk (some true) (some 1) (some "1.2.3.4")
          (some "www") (some 300) none]) (some "example.com")).records =
        some records ∧ r ∈ records ∧
      ∃ h0 dom rest, r.Host = some h0 ∧
        (DnsInfo.mk
          (some [RawRecord.mk (some true) (some 1) (some "1.2.3.4")
            (some "www") (some 300) none]) (some "example.com")).domainName =
          some dom ∧
        ["www.example.com.", "300", "IN", "A", "1.2.3.4"] =
          (if h0 = "@" then dom else h0 ++ "." ++ dom ++ ".") :: rest :=
  ⟨rfl, List.mem_singleton.mpr rfl,
    cloudflare_emitted_host_qualified
      (DnsInfo.mk
        (some [RawRecord.mk (some true) (some 1) (some "1.2.3.4")
          (some "www") (some 300) none]) (some "example.com"))
      [["www.example.com.", "300", "IN", "A", "1.2.3.4"]]
      ["www.example.com.", "300", "IN", "A", "1.2.3.4"]
      rfl (List.mem_singleton.mpr rfl)⟩

/-- C3: every emitted row whose type field is `MX` has its value field
equal to `str(Priority) ++ " " ++ Data`; for a nonnegative priority the
rendering is `Nat.repr`, the canonical decimal numeral (no sign, no
leading zeros). -/
theorem mx_value_priority_space_data (d : DnsInfo) (fmt : String)
    (out : List (List String)) (t : List String)
    (h : parse_dns_info d fmt = .ok out) (ht : t ∈ out)
    (hmx : t[3]? = some "MX") :
    ∃ records r p data, d.records = some records ∧ r ∈ records ∧
      r.Priority = some p ∧ r.Data = some data ∧
      t[4]? = some (toString p ++ " " ++ data) ∧
      (0 ≤ p → toString p = Nat.repr p.toNat) := by
  obtain ⟨records, hrec, r, hr, hpr⟩ := parse_ok_mem_source d fmt out t h ht
  obtain ⟨c, tn, data, h0, ttl, value, host, hA, hC, hL, hD, hH, hT, hV, hHo, hteq⟩ :=
    processRecord_emit_inv d fmt r t hpr
  subst hteq
  have htn : tn = "MX" := by simpa using hmx
  subst htn
  obtain ⟨p, hP, hval⟩ := computeValue_MX_inv r data value hV
  refine ⟨records, r, p, data, hrec, hr, hP, hD, ?_, ?_⟩
  · simp [hval]
  · intro hp
    obtain ⟨n, rfl⟩ := Int.eq_ofNat_of_zero_le hp
    simp [Int.toNat_ofNat]
    rfl

theorem mx_value_priority_space_data_witness :
    parse_dns_info
      (DnsInfo.mk
        (some [RawRecord.mk (some true) (some 3) (some "mail.example.com")
          (some "@") (some 3600) (some 10)]) none) "default" =
      .ok [["@", "3600", "IN", "MX", "10 mail.example.com"]] ∧
    ["@", "3600", "IN", "MX", "10 mail.example.com"] ∈
      [["@", "3600", "IN", "MX", "10 mail.example.com"]] ∧
    ["@", "3600", "IN", "MX", "10 mail.example.com"][3]? = some "MX" ∧
    ∃ records r p data,
      (DnsInfo.mk
        (some [RawRecord.mk (some true) (some 3) (some "mail.example.com")
          (some "@") (some 3600) (some 10)]) none).records = some records ∧
      r ∈ records ∧ r.Priority = some p ∧ r.Data = some data ∧
      ["@", "3600", "IN", "MX", "10 mail.example.com"][4]? =
        some (toString p ++ " " ++ data) ∧
      (0 ≤ p → toString p = Nat.repr p.toNat) :=
  ⟨rfl, List.mem_singleton.mpr rfl, rfl,
    mx_value_priority_space_data
      (DnsInfo.mk
        (some [RawRecord.mk (some true) (some 3) (some "mail.example.com")
          (some "@") (some 3600) (some 10)]) none) "default"
      [["@", "3600", "IN", "MX", "10 mail.example.com"]]
      ["@", "3600", "IN", "MX", "10 mail.example.com"]
      rfl (List.mem_singleton.mpr rfl) rfl⟩

/-- C4: every emitted row whose type field is `TXT` has its value field
equal to `Data` with one literal double quote prepended and one
appended, with no escaping of quotes already inside `Data`. -/
theorem txt_value_double_quoted (d : DnsInfo) (fmt : String)
    (out : List (List String)) (t : List String)
    (h : parse_dns_info d fmt = .ok out) (ht : t ∈ out)
    (htxt : t[3]? = some "TXT") :
    ∃ records r data, d.records = some records ∧ r ∈ records ∧
      r.Data = some data ∧ t[4]? = some ("\"" ++ data ++ "\"") := by
  obtain ⟨records, hrec, r, hr, hpr⟩ := parse_ok_mem_source d fmt out t h ht
  obtain ⟨c, tn, data, h0, ttl, value, host, hA, hC, hL, hD, hH, hT, hV, hHo, hteq⟩ :=
    processRecord_emit_inv d fmt r t hpr
  subst hteq
  have htn : tn = "TXT" := by simpa using htxt
  subst htn
  have hval := computeValue_TXT_inv r data value hV
  exact ⟨records, r, data, hrec, hr, hD, by simp [hval]⟩

theorem txt_value_double_quoted_witness :
    parse_dns_info
      (DnsInfo.mk
        (some [RawRecord.mk (some true) (some 5) (some "say \"hi\" now")
          (some "www") (some 60) none]) none) "default" =
      .ok [["www", "60", "IN", "TXT", "\"say \"hi\" now\""]] ∧
    ["www", "60", "IN", "TXT", "\"say \"hi\" now\""] ∈
      [["www", "60", "IN", "TXT", "\"say \"hi\" now\""]] ∧
    ["www", "60", "IN", "TXT", "\"say \"hi\" now\""][3]? = some "TXT" ∧
    ∃ records r data,
      (DnsInfo.mk
        (some [RawRecord.mk (some true) (some 5) (some "say \"hi\" now")
          (some "www") (some 60) none]) none).records = some records ∧
      r ∈ records ∧ r.Data = some data ∧
      ["www", "60", "IN", "TXT", "\"say \"hi\" now\""][4]? =
        some ("\"" ++ data ++ "\"") :=
  ⟨rfl, List.mem_singleton.mpr rfl, rfl,
    txt_value_double_quoted
      (DnsInfo.mk
        (some [RawRecord.mk (some true) (some 5) (some "say \"hi\" now")
          (some "www") (some 60) none]) none) "default"
      [["www", "60", "IN", "TXT", "\"say \"hi\" now\""]]
      ["www", "60", "IN", "TXT", "\"say \"hi\" now\""]
      rfl (List.mem_singleton.mpr rfl) rfl⟩

/-- C5: every emitted row is the 5-tuple
`[host, str(Ttl), "IN", table name of RecordType, value]` — the class
field is always `IN` — and under the default format the host field is
the record's `Host` attribute unchanged (including a literal `@`). -/
theorem emitted_row_shape (d : DnsInfo) (fmt : String)
    (out : List (List String)) (t : List String)
    (h : parse_dns_info d fmt = .ok out) (ht : t ∈ out) :
    ∃ records r host ttl c tn value,
      d.records = some records ∧ r ∈ records ∧
      r.Ttl = some ttl ∧ r.RecordType = some c ∧
      recordTypesLookup c = some tn ∧
      t = [host, toString ttl, "IN", tn, value] ∧
      (fmt = "default" → r.Host = some host) := by
  obtain ⟨records, hrec, r, hr, hpr⟩ := parse_ok_mem_source d fmt out t h ht
  obtain ⟨c, tn, data, h0, ttl, value, host, hA, hC, hL, hD, hH, hT, hV, hHo, hteq⟩ :=
    processRecord_emit_inv d fmt r t hpr
  refine ⟨records, r, host, ttl, c, tn, value, hrec, hr, hT, hC, hL, hteq, ?_⟩
  intro hfmt
  subst hfmt
  rw [computeHost_default_inv d h0 host hHo]
  exact hH

theorem emitted_row_shape_witness :
    parse_dns_info
      (DnsInfo.mk
        (some [RawRecord.mk (some true) (some 1) (some "1.2.3.4")
          (some "@") (some 300) none]) none) "default" =
      .ok [["@", "300", "IN", "A", "1.2.3.4"]] ∧
    ["@", "300", "IN", "A", "1.2.3.4"] ∈ [["@", "300", "IN", "A", "1.2.3.4"]] ∧
    ∃ records r host ttl c tn value,
      (DnsInfo.mk
        (some [RawRecord.mk (some true) (some 1) (some "1.2.3.4")
          (some "@") (some 300) none]) none).records = some records ∧
      r ∈ records ∧ r.Ttl = some ttl ∧ r.RecordType = some c ∧
      recordTypesLookup c = some tn ∧
      ["@", "300", "IN", "A", "1.2.3.4"] = [host, toString ttl, "IN", tn, value] ∧
      ("default" = "default" → r.Host = some host) :=
  ⟨rfl, List.mem_singleton.mpr rfl,
    emitted_row_shape
      (DnsInfo.mk
        (some [RawRecord.mk (some true) (some 1) (some "1.2.3.4")
          (some "@") (some 300) none]) none) "default"
      [["@", "300", "IN", "A", "1.2.3.4"]]
      ["@", "300", "IN", "A", "1.2.3.4"]
      rfl (List.mem_singleton.mpr rfl)⟩

/-- C1: on a document with the `Records` path, a non-empty sequence of
fully populated records, and (when the cloudflare format is requested) a
`DomainName`, `parse_dns_info` succeeds and returns exactly one row per
active record of known type, in input order; inactive or unknown-type
records are dropped without causing a failure. -/
theorem parse_emits_active_known_in_order (d : DnsInfo) (fmt : String)
    (records : List RawRecord) (hrec : d.records = some records)
    (hne : records ≠ []) (hwf : ∀ r ∈ records, wellFormed r)
    (hdom : fmt = "cloudflare" → d.domainName.isSome) :
    parse_dns_info d fmt = .ok (records.filterMap (emitOne d fmt)) ∧
    ∀ r ∈ records, ((emitOne d fmt r).isSome ↔ qualifies r) := by
  have hok : ∀ r ∈ records, ∃ o, processRecord d fmt r = .ok o := by
    intro r hr
    by_cases hq : qualifies r
    · obtain ⟨t, htt⟩ := processRecord_emits_of_qualifies d fmt r (hwf r hr) hq hdom
      exact ⟨some t, htt⟩
    · obtain ⟨hA, hC, -, -, -, -⟩ := hwf r hr
      obtain ⟨a, hA⟩ := Option.isSome_iff_exists.mp hA
      obtain ⟨c, hC⟩ := Option.isSome_iff_exists.mp hC
      rcases a
      · exact ⟨none, (processRecord_skip_iff d fmt r).mpr (Or.inl hA)⟩
      · rcases hL : recordTypesLookup c with _ | tn
        · exact ⟨none, (processRecord_skip_iff d fmt r).mpr (Or.inr ⟨hA, c, hC, hL⟩)⟩
        · refine absurd ⟨hA, ?_⟩ hq
          rw [recordTypeName, hC]
          simp [hL]
  constructor
  · have hlen : ¬records.length = 0 := by
      intro h0
      rw [List.length_eq_zero] at h0
      exact hne h0
    simp [parse_dns_info, hrec, hlen,
      processRecords_eq_filterMap d fmt records hok]
  · intro r hr
    constructor
    · intro hs
      obtain ⟨t, htE⟩ := Option.isSome_iff_exists.mp hs
      have hpr : processRecord d fmt r = .ok (some t) := by
        rcases hp : processRecord d fmt r with e | o
        · rw [emitOne, hp] at htE
          simp at htE
        · rw [emitOne, hp] at htE
          simp at htE
          rw [htE]
      obtain ⟨c, tn, data, h0, ttl, value, host, hA, hC, hL, -, -, -, -, -, -⟩ :=
        processRecord_emit_inv d fmt r t hpr
      refine ⟨hA, ?_⟩
      rw [recordTypeName, hC]
      simp [hL]
    · intro hq
      obtain ⟨t, htt⟩ := processRecord_emits_of_qualifies d fmt r (hwf r hr) hq hdom
      rw [emitOne, htt]
      simp

theorem parse_emits_active_known_in_order_witness :
    (DnsInfo.mk
      (some [RawRecord.mk (some true) (some 1) (some "1.2.3.4")
          (some "www") (some 300) none,
        RawRecord.mk (some false) (some 1) (some "5.6.7.8")
          (some "old") (some 60) none,
        RawRecord.mk (some true) (some 4) (some "zzz")
          (some "odd") (some 60) none])
      (some "example.com")).records =
      some [RawRecord.mk (some true) (some 1) (some "1.2.3.4")
          (some "www") (some 300) none,
        RawRecord.mk (some false) (some 1) (some "5.6.7.8")
          (some "old") (some 60) none,
        RawRecord.mk (some true) (some 4) (some "zzz")
          (some "odd") (some 60) none] ∧
    [RawRecord.mk (some true) (some 1) (some "1.2.3.4")
        (some "www") (some 300) none,
      RawRecord.mk (some false) (some 1) (some "5.6.7.8")
        (some "old") (some 60) none,
      RawRecord.mk (some true) (some 4) (some "zzz")
        (some "odd") (some 60) none] ≠ [] ∧
    (∀ r ∈ [RawRecord.mk (some true) (some 1) (some "1.2.3.4")
        (some "www") (some 300) none,
      RawRecord.mk (some false) (some 1) (some "5.6.7.8")
        (some "old") (some 60) none,
      RawRecord.mk (some true) (some 4) (some "zzz")
        (some "odd") (some 60) none], wellFormed r) ∧
    ("default" = "cloudflare" →
      (DnsInfo.mk
        (some [RawRecord.mk (some true) (some 1) (some "1.2.3.4")
            (some "www") (some 300) none,
          RawRecord.mk (some false) (some 1) (some "5.6.7.8")
            (some "old") (some 60) none,
          RawRecord.mk (some true) (some 4) (some "zzz")
            (some "odd") (some 60) none])
        (some "example.com")).domainName.isSome) ∧
    (parse_dns_info
      (DnsInfo.mk
        (some [RawRecord.mk (some true) (some 1) (some "1.2.3.4")
            (some "www") (some 300) none,
          RawRecord.mk (some false) (some 1) (some "5.6.7.8")
            (some "old") (some 60) none,
          RawRecord.mk (some true) (some 4) (some "zzz")
            (some "odd") (some 60) none])
        (some "example.com")) "default" =
      .ok ([RawRecord.mk (some true) (some 1) (some "1.2.3.4")
          (some "www") (some 300) none,
        RawRecord.mk (some false) (some 1) (some "5.6.7.8")
          (some "old") (some 60) none,
        RawRecord.mk (some true) (some 4) (some "zzz")
          (some "odd") (some 60) none].filterMap
        (emitOne
          (DnsInfo.mk
            (some [RawRecord.mk (some true) (some 1) (some "1.2.3.4")
                (some "www") (some 300) none,
              RawRecord.mk (some false) (some 1) (some "5.6.7.8")
                (some "old") (some 60) none,
              RawRecord.mk (some true) (some 4) (some "zzz")
                (some "odd") (some 60) none])
            (some "example.com")) "default")) ∧
      ∀ r ∈ [RawRecord.mk (some true) (some 1) (some "1.2.3.4")
          (some "www") (some 300) none,
        RawRecord.mk (some false) (some 1) (some "5.6.7.8")
          (some "old") (some 60) none,
        RawRecord.mk (some true) (some 4) (some "zzz")
          (some "odd") (some 60) none],
        ((emitOne
          (DnsInfo.mk
            (some [RawRecord.mk (some true) (some 1) (some "1.2.3.4")
                (some "www") (some 300) none,
              RawRecord.mk (some false) (some 1) (some "5.6.7.8")
                (some "old") (some 60) none,
              RawRecord.mk (some true) (some 4) (some "zzz")
                (some "odd") (some 60) none])
            (some "example.com")) "default" r).isSome ↔ qualifies r)) :=
  ⟨rfl, by decide, by decide, by decide,
    parse_emits_active_known_in_order
      (DnsInfo.mk
        (some [RawRecord.mk (some true) (some 1) (some "1.2.3.4")
            (some "www") (some 300) none,
          RawRecord.mk (some false) (some 1) (some "5.6.7.8")
            (some "old") (some 60) none,
          RawRecord.mk (some true) (some 4) (some "zzz")
            (some "odd") (some 60) none])
        (some "example.com")) "default"
      [RawRecord.mk (some true) (some 1) (some "1.2.3.4")
          (some "www") (some 300) none,
        RawRecord.mk (some false) (some 1) (some "5.6.7.8")
          (some "old") (some 60) none,
        RawRecord.mk (some true) (some 4) (some "zzz")
          (some "odd") (some 60) none]
      rfl (by decide) (by decide) (by decide)⟩

/-- A record missing an attribute the loop body would read can neither
be skipped nor emitted: the lookup necessarily raises. -/
theorem processRecord_incomplete_not_ok (d : DnsInfo) (fmt : String)
    (r : RawRecord)
    (hbad : r.IsActive = none ∨
      (r.IsActive = some true ∧ (r.RecordType = none ∨
        (∃ tn, recordTypeName r = some tn ∧
          (r.Data = none ∨ r.Host = none ∨ r.Ttl = none ∨
            (tn = "MX" ∧ r.Priority = none)))))) :
    ∀ o, processRecord d fmt r ≠ .ok o := by
  intro o h
  rcases hbad with hA | ⟨hA, hb⟩
  · simp [processRecord, hA] at h
  · rcases hb with hC | ⟨tn, hname, hfield⟩
    · simp [processRecord, hA, hC] at h
    · rcases hC : r.RecordType with _ | c
      · rw [recordTypeName, hC] at hname
        simp at hname
      · rw [recordTypeName, hC] at hname
        simp at hname
        rcases hfield with hD | hH | hT | ⟨hMX, hP⟩
        · simp [processRecord, hA, hC, hname, hD] at h
        · rcases hD : r.Data with _ | data
          · simp [processRecord, hA, hC, hname, hD] at h
          · simp [processRecord, hA, hC, hname, hD, hH] at h
        · rcases hD : r.Data with _ | data
          · simp [processRecord, hA, hC, hname, hD] at h
          · rcases hH : r.Host with _ | host0
            · simp [processRecord, hA, hC, hname, hD, hH] at h
            · rcases hV : computeValue tn r data with eV | value
              · simp [processRecord, hA, hC, hname, hD, hH, hV] at h
              · rcases hHo : computeHost d fmt host0 with eH | host
                · simp [processRecord, hA, hC, hname, hD, hH, hV, hHo] at h
                · simp [processRecord, hA, hC, hname, hD, hH, hV, hHo, hT] at h
        · rcases hD : r.Data with _ | data
          · simp [processRecord, hA, hC, hname, hD] at h
          · rcases hH : r.Host with _ | host0
            · simp [processRecord, hA, hC, hname, hD, hH] at h
            · have hV : computeValue tn r data = .error (.keyError "Priority") := by
                simp [computeValue, hMX, hP]
              simp [processRecord, hA, hC, hname, hD, hH, hV] at h

/-- C10: a record of the sequence that lacks an attribute the loop
reads (`IsActive`; `RecordType` when active; `Data`, `Host`, `Ttl`, or
`Priority` for an MX-type record, when active with a known type) aborts
the whole run with a `KeyError` and no output; `.ok none` skipping is
reserved for records that are inactive or of unknown type. -/
theorem incomplete_record_aborts (d : DnsInfo) (fmt : String)
    (records : List RawRecord) (r : RawRecord)
    (hrec : d.records = some records) (hr : r ∈ records)
    (hbad : r.IsActive = none ∨
      (r.IsActive = some true ∧ (r.RecordType = none ∨
        (∃ tn, recordTypeName r = some tn ∧
          (r.Data = none ∨ r.Host = none ∨ r.Ttl = none ∨
            (tn = "MX" ∧ r.Priority = none)))))) :
    (∃ m, parse_dns_info d fmt = .error (.keyError m)) ∧
    ∀ r' : RawRecord, processRecord d fmt r' = .ok none ↔
      (r'.IsActive = some false ∨
        (r'.IsActive = some true ∧
          ∃ c, r'.RecordType = some c ∧ recordTypesLookup c = none)) := by
  constructor
  · obtain ⟨m, hm⟩ := processRecords_error_of_mem d fmt records r hr
      (processRecord_incomplete_not_ok d fmt r hbad)
    have hlen : ¬records.length = 0 := by
      intro h0
      rw [List.length_eq_zero] at h0
      subst h0
      cases hr
    exact ⟨m, by simp [parse_dns_info, hrec, hlen, hm]⟩
  · intro r'
    exact processRecord_skip_iff d fmt r'

theorem incomplete_record_aborts_witness :
    (DnsInfo.mk
      (some [RawRecord.mk (some true) (some 1) (some "1.2.3.4")
        (some "www") none none]) none).records =
      some [RawRecord.mk (some true) (some 1) (some "1.2.3.4")
        (some "www") none none] ∧
    RawRecord.mk (some true) (some 1) (some "1.2.3.4") (some "www") none none ∈
      [RawRecord.mk (some true) (some 1) (some "1.2.3.4")
        (some "www") none none] ∧
    ((RawRecord.mk (some true) (some 1) (some "1.2.3.4")
        (some "www") none none).IsActive = none ∨
      ((RawRecord.mk (some true) (some 1) (some "1.2.3.4")
          (some "www") none none).IsActive = some true ∧
        ((RawRecord.mk (some true) (some 1) (some "1.2.3.4")
            (some "www") none none).RecordType = none ∨
          (∃ tn, recordTypeName (RawRecord.mk (some true) (some 1)
              (some "1.2.3.4") (some "www") none none) = some tn ∧
            ((RawRecord.mk (some true) (some 1) (some "1.2.3.4")
                (some "www") none none).Data = none ∨
              (RawRecord.mk (some true) (some 1) (some "1.2.3.4")
                (some "www") none none).Host = none ∨
              (RawRecord.mk (some true) (some 1) (some "1.2.3.4")
                (some "www") none none).Ttl = none ∨
              (tn = "MX" ∧
                (RawRecord.mk (some true) (some 1) (some "1.2.3.4")
                  (some "www") none none).Priority = none)))))) ∧
    ((∃ m, parse_dns_info
        (DnsInfo.mk
          (some [RawRecord.mk (some true) (some 1) (some "1.2.3.4")
            (some "www") none none]) none) "default" =
        .error (.keyError m)) ∧
      ∀ r' : RawRecord,
        processRecord
            (DnsInfo.mk
              (some [RawRecord.mk (some true) (some 1) (some "1.2.3.4")
                (some "www") none none]) none) "default" r' = .ok none ↔
          (r'.IsActive = some false ∨
            (r'.IsActive = some true ∧
              ∃ c, r'.RecordType = some c ∧ recordTypesLookup c = none))) :=
  ⟨rfl, List.mem_singleton.mpr rfl,
    Or.inr ⟨rfl, Or.inr ⟨"A", rfl, Or.inr (Or.inr (Or.inl rfl))⟩⟩,
    incomplete_record_aborts
      (DnsInfo.mk
        (some [RawRecord.mk (some true) (some 1) (some "1.2.3.4")
          (some "www") none none]) none) "default"
      [RawRecord.mk (some true) (some 1) (some "1.2.3.4") (some "www") none none]
      (RawRecord.mk (some true) (some 1) (some "1.2.3.4") (some "www") none none)
      rfl (List.mem_singleton.mpr rfl)
      (Or.inr ⟨rfl, Or.inr ⟨"A", rfl, Or.inr (Or.inr (Or.inl rfl))⟩⟩)⟩
